import Mathlib

/-
Verification of the handle-management core of native-windows-gui.

Source files embedded here:
  * src/low/window_helper.rs  (build_sysclass, build_window, list_window_children,
    list_children_window, handle_of_window, handle_of_font)
  * src/controls/mod.rs       (set_handle_data / get_handle_data / free_handle_data wrappers)

Parts of the repository referenced by those files but not present in the
provided sources (UiInner and its map, events::window_id, the base data-store
module, menu_helper::list_menu_children) are modelled from the specification;
each such definition carries a doc comment starting with "Modelled from the
spec:".  The Windows API calls (GetModuleHandleW, RegisterClassExW,
CreateWindowExW, GetMenu, EnumChildWindows) are modelled as an explicit OS
state with standard Win32 semantics.
-/

namespace Nwg

/-- Window handle, as a raw pointer value; 0 stands for the null handle. -/
abbrev HWND := Nat

/-- Font handle, as a raw pointer value; 0 stands for the null handle. -/
abbrev HFONT := Nat

/-- Menu handle, as a raw pointer value; 0 stands for the null handle. -/
abbrev HMENU := Nat

/-- Brush handle, as a raw pointer value. -/
abbrev HBRUSH := Nat

/-- Modelled from the spec: `AnyHandle` (used by `window_helper.rs` but defined
outside the provided sources) is a tagged union over the possible OS resource
handle kinds (window, font, menu, brush); exactly one variant is populated. -/
inductive AnyHandle where
  | HWND (h : HWND)
  | HFONT (h : HFONT)
  | HMENU (h : HMENU)
  | HBRUSH (h : HBRUSH)
deriving DecidableEq, Repr

/-- System-level errors surfaced by the builder (`error::SystemError`). -/
inductive SystemError where
  | SystemClassCreation
  | WindowCreationFail
deriving DecidableEq, Repr

/-- Modelled from the spec: the error surface consumed by callers of the
registry — `BadParent(description)`, `BadResource(description)` from the typed
accessors, plus the not-found / already-registered conditions of the lookups. -/
inductive Error where
  | BadParent (msg : String)
  | BadResource (msg : String)
  | KeyNotFound
  | KeyExists
deriving DecidableEq, Repr

/-- Modelled from the spec: `UiInner` owns the bidirectional mapping
`Identifier ↔ AnyHandle` for one UI tree, represented as an association list. -/
structure UiInner (ID : Type) where
  mappings : List (ID × AnyHandle)

/-- In the library `Ui<ID>` wraps `UiInner<ID>`; for lookups the two coincide. -/
abbrev Ui := UiInner

variable {ID : Type} [DecidableEq ID]

/-- Empty registry of a freshly initialized UI tree. -/
def UiInner.empty : UiInner ID := ⟨[]⟩

/-- Modelled from the spec: `insert(identifier, handle)` registers a new
bijective mapping; it fails (a programming error) if the identifier is already
registered, and registering "a new bijective mapping" likewise rejects a handle
that is already mapped, preserving the bijection invariant. -/
def UiInner.insert (r : UiInner ID) (id : ID) (h : AnyHandle) :
    Except Error (UiInner ID) :=
  if r.mappings.any (fun e => decide (e.1 = id)) then .error .KeyExists
  else if r.mappings.any (fun e => decide (e.2 = h)) then .error .KeyExists
  else .ok ⟨(id, h) :: r.mappings⟩

/-- Modelled from the spec: `remove(identifier)` deregisters and returns the
handle so the caller can release the OS resource; fails with not-found if the
identifier is unregistered. -/
def UiInner.remove (r : UiInner ID) (id : ID) :
    Except Error (AnyHandle × UiInner ID) :=
  match r.mappings.find? (fun e => decide (e.1 = id)) with
  | some e => .ok (e.2, ⟨r.mappings.filter (fun x => decide (x.1 ≠ id))⟩)
  | none => .error .KeyNotFound

/-- Modelled from the spec: `handle_of(identifier)` resolves an identifier to
its handle, failing with a "not found" condition if unregistered. -/
def UiInner.handle_of (r : UiInner ID) (id : ID) : Except Error AnyHandle :=
  match r.mappings.find? (fun e => decide (e.1 = id)) with
  | some e => .ok e.2
  | none => .error .KeyNotFound

/-- Modelled from the spec: `low::events::window_id(handle, inner)` is the
reverse lookup used by dispatch and enumeration — it resolves a window handle
to the identifier registered for it, recognizing only handles of the window
kind that belong to this tree. -/
def window_id (handle : HWND) (r : UiInner ID) : Option ID :=
  (r.mappings.find? (fun e => decide (e.2 = AnyHandle.HWND handle))).map
    (fun e => e.1)

/-- Bijection invariant of the registry: no two live identifiers share a
handle and no handle maps to two identifiers (both projections duplicate-free). -/
def UiInner.Bijection (r : UiInner ID) : Prop :=
  (r.mappings.map Prod.fst).Nodup ∧ (r.mappings.map Prod.snd).Nodup

/-- An observable operation on the Handle Registry. -/
inductive RegOp (ID : Type) where
  | insert (id : ID) (h : AnyHandle)
  | remove (id : ID)

/-- Apply one registry operation; a failing operation leaves the registry
unchanged (the error is surfaced to the caller, not applied). -/
def UiInner.apply (r : UiInner ID) : RegOp ID → UiInner ID
  | .insert id h =>
    match r.insert id h with
    | .ok r' => r'
    | .error _ => r
  | .remove id =>
    match r.remove id with
    | .ok p => p.2
    | .error _ => r

/-- Run a sequence of registry operations from a starting state. -/
def UiInner.run (r : UiInner ID) (ops : List (RegOp ID)) : UiInner ID :=
  ops.foldl UiInner.apply r

/-- Embedding of `handle_of_window` (window_helper.rs:184): narrow the stored
`AnyHandle` to the `HWND` variant, turning a wrong-kind handle into
`Error::BadParent(err)` and propagating lookup errors unchanged. -/
def handle_of_window (ui : Ui ID) (id : ID) (err : String) :
    Except Error HWND :=
  match ui.handle_of id with
  | .ok (AnyHandle.HWND h) => .ok h
  | .ok _ => .error (.BadParent err)
  | .error e => .error e

/-- Embedding of `handle_of_font` (window_helper.rs:193): narrow the stored
`AnyHandle` to the `HFONT` variant, turning a wrong-kind handle into
`Error::BadResource(err)` and propagating lookup errors unchanged. -/
def handle_of_font (ui : Ui ID) (id : ID) (err : String) :
    Except Error HFONT :=
  match ui.handle_of id with
  | .ok (AnyHandle.HFONT h) => .ok h
  | .ok _ => .error (.BadResource err)
  | .error e => .error e

/-- Win32 error code returned by RegisterClassExW when the class name is
already registered. -/
def ERROR_CLASS_ALREADY_EXISTS : Nat := 1410

/-- Embedding of `SysclassParams` (window_helper.rs:38); the procedure pointer
is kept as an opaque number. -/
structure SysclassParams where
  class_name : String
  sysproc : Nat

/-- Result of a RegisterClassExW call: the returned class atom (0 on failure)
and the thread's last-error code as read by GetLastError. -/
structure RegisterResult where
  atom : Nat
  lastError : Nat

/-- Modelled OS state seen by `build_sysclass`: the module handle returned by
GetModuleHandleW (0 when it cannot be obtained), the process-wide class table,
and an oracle giving the error code of a registration the OS refuses for a
reason other than the name being taken. -/
structure ClassOS where
  hmod : Nat
  classes : List String
  freshAtom : Nat
  failCode : String → Option Nat

/-- Win32 semantics of RegisterClassExW over the modelled state: a refused
registration returns atom 0 with the oracle's error code; a name already in
the class table returns atom 0 with ERROR_CLASS_ALREADY_EXISTS; otherwise a
fresh non-zero atom is returned and the table gains the name. -/
def registerClassExW (os : ClassOS) (name : String) :
    RegisterResult × ClassOS :=
  match os.failCode name with
  | some c => ({ atom := 0, lastError := c }, os)
  | none =>
    if name ∈ os.classes then
      ({ atom := 0, lastError := ERROR_CLASS_ALREADY_EXISTS }, os)
    else
      ({ atom := os.freshAtom + 1, lastError := 0 },
        { os with classes := name :: os.classes })

/-- Embedding of `build_sysclass` (window_helper.rs:66): fail with
`SystemClassCreation` when the module handle is null; otherwise register the
class and fail with `SystemClassCreation` exactly when the returned token is 0
and the last error is not ERROR_CLASS_ALREADY_EXISTS. -/
def build_sysclass (os : ClassOS) (p : SysclassParams) :
    Except SystemError Unit × ClassOS :=
  if os.hmod = 0 then (.error .SystemClassCreation, os)
  else
    let res := registerClassExW os p.class_name
    if res.1.atom = 0 ∧ res.1.lastError ≠ ERROR_CLASS_ALREADY_EXISTS then
      (.error .SystemClassCreation, res.2)
    else (.ok (), res.2)

/-- Embedding of `WindowParams` (window_helper.rs:49). -/
structure WindowParams where
  title : String
  class_name : String
  position : Int × Int
  size : Nat × Nat
  flags : Nat
  parent : HWND

/-- Extended window style requesting composited rendering. -/
def WS_EX_COMPOSITED : Nat := 0x02000000

/-- Wrapping cast from a u32 value to an i32, as performed by `as i32` on the
size fields. -/
def u32_as_i32 (n : Nat) : Int :=
  if n % 2 ^ 32 < 2 ^ 31 then ((n % 2 ^ 32 : Nat) : Int)
  else ((n % 2 ^ 32 : Nat) : Int) - 2 ^ 32

/-- Argument record of a CreateWindowExW call. -/
structure CreateWindowArgs where
  exStyle : Nat
  class_name : String
  window_name : String
  style : Nat
  x : Int
  y : Int
  width : Int
  height : Int
  parent : HWND

/-- Arguments that `build_window` (window_helper.rs:119) passes to
CreateWindowExW: the extended style is the literal WS_EX_COMPOSITED, the
remaining fields come from the caller's `WindowParams`. -/
def build_window_args (p : WindowParams) : CreateWindowArgs :=
  { exStyle := WS_EX_COMPOSITED
    class_name := p.class_name
    window_name := p.title
    style := p.flags
    x := p.position.1
    y := p.position.2
    width := u32_as_i32 p.size.1
    height := u32_as_i32 p.size.2
    parent := p.parent }

/-- Modelled OS state seen by `build_window`: the module handle, the set of
live window handles, a counter issuing fresh handles, and an oracle for
creations the OS refuses for any further reason (resource exhaustion, bad
class, ...). -/
structure WindowOS where
  hmod : Nat
  nextHandle : Nat
  windows : List HWND
  createFails : CreateWindowArgs → Bool

/-- Win32 semantics of CreateWindowExW over the modelled state: the call
returns the null handle when the oracle refuses the creation or when a
non-null parent is not a live window; otherwise it returns a fresh non-null
handle and the window becomes live. -/
def createWindowExW (os : WindowOS) (a : CreateWindowArgs) :
    HWND × WindowOS :=
  if os.createFails a then (0, os)
  else if a.parent ≠ 0 ∧ a.parent ∉ os.windows then (0, os)
  else
    let h := os.nextHandle + 1
    (h, { os with nextHandle := h, windows := h :: os.windows })

/-- Embedding of `build_window` (window_helper.rs:108): fail with
`WindowCreationFail` when the module handle is null; otherwise call
CreateWindowExW with the composited extended style and fail with
`WindowCreationFail` exactly when the returned handle is null. -/
def build_window (os : WindowOS) (p : WindowParams) :
    Except SystemError HWND × WindowOS :=
  if os.hmod = 0 then (.error .WindowCreationFail, os)
  else
    let res := createWindowExW os (build_window_args p)
    if res.1 = 0 then (.error .WindowCreationFail, res.2)
    else (.ok res.1, res.2)

/-- Combined system state: the modelled OS and one UI tree's Handle Registry.
`build_window` receives no registry argument in the source, so the embedding
threads the registry through untouched. -/
structure SysState (ID : Type) where
  os : WindowOS
  registry : UiInner ID

/-- Execution of `build_window` against the combined state. -/
def build_window_sys (st : SysState ID) (p : WindowParams) :
    Except SystemError HWND × SysState ID :=
  let res := build_window st.os p
  (res.1, { st with os := res.2 })

/-- Modelled from the spec: the type-erased per-handle side table behind
`controls::base`. A stored value is a payload of type `V t` tagged with its
runtime type code `t`; each handle owns at most one attachment. -/
structure DataStore (V : Nat → Type) where
  table : List (HWND × Sigma V)

variable {V : Nat → Type}

/-- Data store with no attachments. -/
def DataStore.empty (V : Nat → Type) : DataStore V := ⟨[]⟩

/-- Modelled from the spec and the wrapper at controls/mod.rs:29:
`set_handle_data(handle, data)` attaches `data` to `handle`, overwriting any
previous attachment for that handle and taking ownership. -/
def set_handle_data (s : DataStore V) (h : HWND) (t : Nat) (v : V t) :
    DataStore V :=
  ⟨(h, ⟨t, v⟩) :: s.table.filter (fun e => decide (e.1 ≠ h))⟩

/-- Modelled from the spec and the wrapper at controls/mod.rs:33:
`get_handle_data(handle)` returns the attached value; it signals absence when
no value is attached or when the attached value's type tag does not match the
requested one (the store is type-erased, so the tag is checked, not assumed). -/
def get_handle_data (s : DataStore V) (h : HWND) (t : Nat) : Option (V t) :=
  match s.table.find? (fun e => decide (e.1 = h)) with
  | some e =>
    match e.2 with
    | ⟨t', v⟩ => if ht : t' = t then some (ht ▸ v) else none
  | none => none

/-- Modelled from the spec and the wrapper at controls/mod.rs:37:
`free_handle_data(handle)` releases and drops the attachment of `handle`. -/
def free_handle_data (s : DataStore V) (h : HWND) : DataStore V :=
  ⟨s.table.filter (fun e => decide (e.1 ≠ h))⟩

/-- An operation on the per-handle data store. -/
inductive StoreOp (V : Nat → Type) where
  | set (h : HWND) (t : Nat) (v : V t)
  | free (h : HWND)

/-- Whether an operation attaches data to the given handle. -/
def StoreOp.isSetOn : StoreOp V → HWND → Bool
  | .set h' _ _, h => h' = h
  | .free _, _ => false

/-- Apply one data-store operation. -/
def DataStore.applyOp (s : DataStore V) : StoreOp V → DataStore V
  | .set h t v => set_handle_data s h t v
  | .free h => free_handle_data s h

/-- Run a sequence of data-store operations. -/
def DataStore.runOps (s : DataStore V) (ops : List (StoreOp V)) : DataStore V :=
  ops.foldl DataStore.applyOp s

/-- Modelled OS window-tree state seen by `list_window_children`: GetMenu
(0 when the window owns no menu), the identifiers produced by
`menu_helper::list_menu_children` (a collaborator outside the provided
sources), and the child windows reported by EnumChildWindows, in OS
enumeration order. -/
structure WinTree (ID : Type) where
  menuOf : HWND → HMENU
  menuItems : HMENU → List ID
  childWindows : HWND → List HWND

/-- Modelled from the spec: `list_menu_children(menu)` returns the menu-borne
item identifiers of a menu; here it reads the oracle of the modelled tree. -/
def list_menu_children (os : WinTree ID) (m : HMENU) : List ID :=
  os.menuItems m

/-- Embedding of the enumeration callback `list_children_window`
(window_helper.rs:139): look the handle up in the registry through
`window_id`, push the identifier when it is recognized, and return 1 so that
enumeration continues. -/
def list_children_window (inner : UiInner ID) (handle : HWND)
    (ids : List ID) : Nat × List ID :=
  match window_id handle inner with
  | some id => (1, ids ++ [id])
  | none => (1, ids)

/-- Win32 semantics of EnumChildWindows: invoke the callback once per reported
child in order, stopping early as soon as the callback returns 0. -/
def EnumChildWindows {σ : Type} (cb : HWND → σ → Nat × σ) :
    List HWND → σ → σ
  | [], acc => acc
  | c :: rest, acc =>
    let r := cb c acc
    if r.1 = 0 then r.2 else EnumChildWindows cb rest r.2

/-- Embedding of `list_window_children` (window_helper.rs:154): start from the
menu children when the window owns a menu, then let EnumChildWindows drive the
callback over the OS-reported children, accumulating into the same vector. -/
def list_window_children (os : WinTree ID) (handle : HWND)
    (ui : UiInner ID) : List ID :=
  let children : List ID :=
    if os.menuOf handle ≠ 0 then list_menu_children os (os.menuOf handle)
    else []
  EnumChildWindows (list_children_window ui) (os.childWindows handle) children

/-- Preservation lemma: one registry operation keeps the bijection invariant
(a failing operation leaves the registry unchanged). -/
theorem bijection_apply (r : UiInner ID) (op : RegOp ID) (hb : r.Bijection) :
    (r.apply op).Bijection := by
  obtain ⟨hf, hs⟩ := hb
  cases op with
  | insert id h =>
    simp only [UiInner.apply, UiInner.insert]
    by_cases h1 : r.mappings.any (fun e => decide (e.1 = id)) = true
    · simp only [h1, if_true]
      exact ⟨hf, hs⟩
    · by_cases h2 : r.mappings.any (fun e => decide (e.2 = h)) = true
      · simp only [h1, h2, if_false, if_true, Bool.false_eq_true]
        exact ⟨hf, hs⟩
      · simp only [h1, h2, if_false, Bool.false_eq_true]
        simp only [List.any_eq_true, decide_eq_true_eq, not_exists, not_and] at h1 h2
        refine ⟨?_, ?_⟩
        · simp only [UiInner.Bijection, List.map_cons, List.nodup_cons]
          refine ⟨?_, hf⟩
          intro hmem
          obtain ⟨e, he, heq⟩ := List.mem_map.mp hmem
          exact h1 e he heq
        · simp only [List.map_cons, List.nodup_cons]
          refine ⟨?_, hs⟩
          intro hmem
          obtain ⟨e, he, heq⟩ := List.mem_map.mp hmem
          exact h2 e he heq
  | remove id =>
    simp only [UiInner.apply, UiInner.remove]
    cases hfind : r.mappings.find? (fun e => decide (e.1 = id)) with
    | none => exact ⟨hf, hs⟩
    | some e =>
      refine ⟨?_, ?_⟩
      · exact ((List.filter_sublist _).map Prod.fst).nodup hf
      · exact ((List.filter_sublist _).map Prod.snd).nodup hs

/-- C1: for every sequence of insert and remove operations on the Handle
Registry starting from the empty registry, the identifier-to-handle mapping is
a bijection at every observable point — no two live identifiers map to the
same handle and no handle maps to two identifiers.  Since every prefix of a
sequence is itself a sequence, quantifying over all sequences covers every
observable point. -/
theorem registry_bijection_invariant (ops : List (RegOp ID)) :
    (UiInner.run (UiInner.empty : UiInner ID) ops).Bijection := by
  have h : ∀ (r : UiInner ID), r.Bijection → (UiInner.run r ops).Bijection := by
    induction ops with
    | nil => intro r hr; exact hr
    | cons op rest ih =>
      intro r hr
      simp only [UiInner.run, List.foldl_cons]
      exact ih (r.apply op) (bijection_apply r op hr)
  exact h UiInner.empty ⟨List.nodup_nil, List.nodup_nil⟩

/-- C2: for a registered identifier, `handle_of_window` returns the handle of
an HWND-variant entry and `Error::BadParent(err)` for any other variant;
`handle_of_font` returns the handle of an HFONT-variant entry and
`Error::BadResource(err)` for any other variant; for an unregistered
identifier both propagate the lookup error unchanged.  Every case yields a
value, never a crash. -/
theorem typed_accessors_narrow (ui : Ui ID) (id : ID) (err : String) :
    (∀ a, ui.handle_of id = .ok a →
      handle_of_window ui id err =
        (match a with
          | AnyHandle.HWND w => .ok w
          | _ => .error (.BadParent err)) ∧
      handle_of_font ui id err =
        (match a with
          | AnyHandle.HFONT f => .ok f
          | _ => .error (.BadResource err))) ∧
    (∀ e, ui.handle_of id = .error e →
      handle_of_window ui id err = .error e ∧
      handle_of_font ui id err = .error e) := by
  constructor
  · intro a ha
    cases a <;> simp [handle_of_window, handle_of_font, ha]
  · intro e he
    simp [handle_of_window, handle_of_font, he]

/-- Witness for C2: in a registry where identifier 0 is registered as font
handle 5, `handle_of_window` fails with `BadParent` and `handle_of_font`
returns the font handle. -/
theorem typed_accessors_narrow_witness :
    handle_of_window (⟨[(0, AnyHandle.HFONT 5)]⟩ : Ui Nat) 0 "parent" =
      .error (.BadParent "parent") ∧
    handle_of_font (⟨[(0, AnyHandle.HFONT 5)]⟩ : Ui Nat) 0 "parent" =
      .ok 5 := by
  have h := (typed_accessors_narrow (⟨[(0, AnyHandle.HFONT 5)]⟩ : Ui Nat) 0
    "parent").1 (AnyHandle.HFONT 5) (by rfl)
  exact ⟨h.1, h.2⟩

/-- Helper: with a usable module handle and no OS-level refusal of the name,
`build_sysclass` succeeds — whether the class is new or already registered. -/
theorem build_sysclass_ok_of (os : ClassOS) (p : SysclassParams)
    (hm : os.hmod ≠ 0) (hf : os.failCode p.class_name = none) :
    (build_sysclass os p).1 = .ok () := by
  simp only [build_sysclass, registerClassExW, hf, if_neg hm]
  by_cases hmem : p.class_name ∈ os.classes
  · simp [hmem, ERROR_CLASS_ALREADY_EXISTS]
  · simp [hmem]

/-- Helper: `build_sysclass` never changes the module handle or the refusal
oracle of the modelled OS. -/
theorem build_sysclass_state (os : ClassOS) (p : SysclassParams) :
    ((build_sysclass os p).2).hmod = os.hmod ∧
    ((build_sysclass os p).2).failCode = os.failCode := by
  by_cases hm : os.hmod = 0
  · simp [build_sysclass, hm]
  · simp only [build_sysclass, registerClassExW, if_neg hm]
    cases hc : os.failCode p.class_name with
    | none =>
      by_cases hmem : p.class_name ∈ os.classes
      · simp [hmem, ERROR_CLASS_ALREADY_EXISTS]
      · simp [hmem]
    | some c =>
      by_cases hz : c = ERROR_CLASS_ALREADY_EXISTS
      · simp [hz]
      · simp [hz]

/-- C3: `build_sysclass` fails with `SystemClassCreation` exactly when the OS
module handle cannot be obtained, or registration reports failure with an
error other than ERROR_CLASS_ALREADY_EXISTS (already-exists is treated as
success); consequently, with a usable module handle and no other OS refusal,
registering the same class name twice succeeds both times. -/
theorem build_sysclass_idempotent (os : ClassOS) (p : SysclassParams) :
    ((build_sysclass os p).1 = .error .SystemClassCreation ↔
      os.hmod = 0 ∨
        ((registerClassExW os p.class_name).1.atom = 0 ∧
          (registerClassExW os p.class_name).1.lastError ≠
            ERROR_CLASS_ALREADY_EXISTS)) ∧
    (os.hmod ≠ 0 → os.failCode p.class_name = none →
      ∀ q : SysclassParams, q.class_name = p.class_name →
        (build_sysclass os p).1 = .ok () ∧
        (build_sysclass (build_sysclass os p).2 q).1 = .ok ()) := by
  constructor
  · by_cases hm : os.hmod = 0
    · simp [build_sysclass, hm]
    · simp only [build_sysclass, if_neg hm]
      by_cases hcond : (registerClassExW os p.class_name).1.atom = 0 ∧
          (registerClassExW os p.class_name).1.lastError ≠
            ERROR_CLASS_ALREADY_EXISTS
      · simp [hcond, hm]
      · simp [hcond, hm]
  · intro hm hf q hq
    refine ⟨build_sysclass_ok_of os p hm hf, ?_⟩
    have hst := build_sysclass_state os p
    refine build_sysclass_ok_of _ q ?_ ?_
    · rw [hst.1]; exact hm
    · rw [hst.2, hq]; exact hf

/-- Witness for C3: a module handle of 1, an empty class table and an OS that
refuses nothing — registering class "NWG_CUSTOM" twice succeeds both times. -/
theorem build_sysclass_idempotent_witness :
    (build_sysclass ⟨1, [], 0, fun _ => none⟩ ⟨"NWG_CUSTOM", 0⟩).1 =
      .ok () ∧
    (build_sysclass
        (build_sysclass ⟨1, [], 0, fun _ => none⟩ ⟨"NWG_CUSTOM", 0⟩).2
        ⟨"NWG_CUSTOM", 0⟩).1 = .ok () :=
  (build_sysclass_idempotent ⟨1, [], 0, fun _ => none⟩ ⟨"NWG_CUSTOM", 0⟩).2
    (by decide) (by rfl) ⟨"NWG_CUSTOM", 0⟩ rfl

/-- C4: `build_window` fails with `WindowCreationFail` exactly when the OS
module handle is unavailable or CreateWindowExW returns the null handle, and
returns `Ok(handle)` exactly when the module handle is usable and
CreateWindowExW returned that non-null handle; in particular a non-null
parent that is not a live window makes it fail. -/
theorem build_window_error_characterization (os : WindowOS)
    (p : WindowParams) :
    ((build_window os p).1 = .error .WindowCreationFail ↔
      os.hmod = 0 ∨ (createWindowExW os (build_window_args p)).1 = 0) ∧
    (∀ h, (build_window os p).1 = .ok h ↔
      os.hmod ≠ 0 ∧ (createWindowExW os (build_window_args p)).1 = h ∧
        h ≠ 0) ∧
    (os.createFails (build_window_args p) = false → p.parent ≠ 0 →
      p.parent ∉ os.windows →
      (build_window os p).1 = .error .WindowCreationFail) := by
  refine ⟨?_, ?_, ?_⟩
  · by_cases hm : os.hmod = 0
    · simp [build_window, hm]
    · simp only [build_window, if_neg hm]
      by_cases hz : (createWindowExW os (build_window_args p)).1 = 0
      · simp [hz, hm]
      · simp [hz, hm]
  · intro h
    by_cases hm : os.hmod = 0
    · simp [build_window, hm]
    · simp only [build_window, if_neg hm]
      by_cases hz : (createWindowExW os (build_window_args p)).1 = 0
      · simp only [hz, if_true]
        constructor
        · intro hc; cases hc
        · rintro ⟨-, rfl, hne⟩; exact absurd rfl hne
      · simp only [if_neg hz]
        constructor
        · rintro hok; cases hok; exact ⟨hm, rfl, hz⟩
        · rintro ⟨-, rfl, -⟩; rfl
  · intro hcf hpar hmem
    have hz : (createWindowExW os (build_window_args p)).1 = 0 := by
      simp only [createWindowExW, hcf, Bool.false_eq_true, if_false]
      have : (build_window_args p).parent ≠ 0 ∧
          (build_window_args p).parent ∉ os.windows := ⟨hpar, hmem⟩
      simp [this]
    by_cases hm : os.hmod = 0
    · simp [build_window, hm]
    · simp [build_window, if_neg hm, hz]

/-- Witness for C4: module handle 1, no live windows, an OS that refuses
nothing, and a window request whose parent handle 7 is not a live window —
creation fails with `WindowCreationFail`. -/
theorem build_window_error_characterization_witness :
    (build_window ⟨1, 0, [], fun _ => false⟩
        ⟨"t", "c", (0, 0), (10, 10), 0, 7⟩).1 =
      .error .WindowCreationFail :=
  (build_window_error_characterization ⟨1, 0, [], fun _ => false⟩
    ⟨"t", "c", (0, 0), (10, 10), 0, 7⟩).2.2 rfl (by decide) (by simp)

/-- C8: the extended-style argument that `build_window` hands to
CreateWindowExW is WS_EX_COMPOSITED for every input, regardless of the
caller-supplied style flags. -/
theorem build_window_always_composited (p : WindowParams) :
    (build_window_args p).exStyle = WS_EX_COMPOSITED := rfl

omit [DecidableEq ID] in
/-- C9: when `build_window` fails, the Handle Registry is untouched and no
partial OS window is left behind: the registry component of the combined
state and the set of live OS windows are both unchanged. -/
theorem build_window_error_frame (st : SysState ID) (p : WindowParams)
    (e : SystemError) (h : (build_window_sys st p).1 = .error e) :
    (build_window_sys st p).2.registry = st.registry ∧
    (build_window_sys st p).2.os.windows = st.os.windows := by
  refine ⟨rfl, ?_⟩
  simp only [build_window_sys, build_window] at h ⊢
  by_cases hm : st.os.hmod = 0
  · simp [hm]
  · simp only [if_neg hm] at h ⊢
    by_cases hz : (createWindowExW st.os (build_window_args p)).1 = 0
    · simp only [hz, if_true]
      simp only [createWindowExW] at hz ⊢
      by_cases hc : st.os.createFails (build_window_args p) = true
      · simp [hc]
      · simp only [hc, Bool.false_eq_true, if_false] at hz ⊢
        by_cases hp : (build_window_args p).parent ≠ 0 ∧
            (build_window_args p).parent ∉ st.os.windows
        · simp [hp]
        · simp only [if_neg hp] at hz
          exact absurd hz (Nat.succ_ne_zero _)
    · simp only [if_neg hz] at h
      cases h

/-- Witness for C9: a null module handle makes `build_window` fail, and the
registry holding identifier 1 for window 2, as well as the live-window list,
are returned unchanged. -/
theorem build_window_error_frame_witness :
    (build_window_sys
        (⟨⟨0, 5, [3], fun _ => false⟩,
          (⟨[(1, AnyHandle.HWND 2)]⟩ : UiInner Nat)⟩ : SysState Nat)
        ⟨"t", "c", (0, 0), (10, 10), 0, 3⟩).2.registry =
      ⟨[(1, AnyHandle.HWND 2)]⟩ ∧
    (build_window_sys
        (⟨⟨0, 5, [3], fun _ => false⟩,
          (⟨[(1, AnyHandle.HWND 2)]⟩ : UiInner Nat)⟩ : SysState Nat)
        ⟨"t", "c", (0, 0), (10, 10), 0, 3⟩).2.os.windows = [3] :=
  build_window_error_frame
    (⟨⟨0, 5, [3], fun _ => false⟩,
      (⟨[(1, AnyHandle.HWND 2)]⟩ : UiInner Nat)⟩ : SysState Nat)
    ⟨"t", "c", (0, 0), (10, 10), 0, 3⟩ .WindowCreationFail rfl

/-- C5: reading a handle's attachment right after writing it returns exactly
the value written, at the type it was written at; the write overwrites any
previous attachment of that handle. -/
theorem set_get_roundtrip (s : DataStore V) (h : HWND) (t : Nat) (v : V t) :
    get_handle_data (set_handle_data s h t v) h t = some v := by
  simp [get_handle_data, set_handle_data, List.find?_cons_of_pos]

/-- Helper: a lookup into a table from which every entry of key `h` was
filtered out finds nothing for `h`. -/
theorem find_key_filter_ne {α : Type} (l : List (HWND × α)) (h : HWND) :
    (l.filter (fun e => decide (e.1 ≠ h))).find?
      (fun e => decide (e.1 = h)) = none := by
  induction l with
  | nil => rfl
  | cons e rest ih =>
    by_cases he : e.1 = h
    · have hd : (decide (e.1 ≠ h)) = false := by simp [he]
      simp only [List.filter_cons, hd, Bool.false_eq_true, if_false]
      exact ih
    · simp only [List.filter_cons]
      rw [if_pos (by simpa using he)]
      rw [List.find?_cons_of_neg _ (by simpa using he)]
      exact ih

/-- Helper: an operation that does not attach data to `h` cannot make a
lookup for `h` succeed when it failed before. -/
theorem absent_preserved (s : DataStore V) (h : HWND) (op : StoreOp V)
    (hop : op.isSetOn h = false)
    (habs : s.table.find? (fun e => decide (e.1 = h)) = none) :
    (s.applyOp op).table.find? (fun e => decide (e.1 = h)) = none := by
  rw [List.find?_eq_none] at habs ⊢
  cases op with
  | set h' t v =>
    have hne : h' ≠ h := by
      simpa [StoreOp.isSetOn] using hop
    intro x hx
    simp only [DataStore.applyOp, set_handle_data, List.mem_cons] at hx
    rcases hx with rfl | hx
    · simpa using hne
    · exact habs x (List.mem_of_mem_filter hx)
  | free h' =>
    intro x hx
    simp only [DataStore.applyOp, free_handle_data] at hx
    exact habs x (List.mem_of_mem_filter hx)

/-- Helper: absence of data for `h` survives any sequence of operations none
of which attaches data to `h`. -/
theorem absent_preserved_run (s : DataStore V) (h : HWND)
    (ops : List (StoreOp V)) (hops : ∀ op ∈ ops, op.isSetOn h = false)
    (habs : s.table.find? (fun e => decide (e.1 = h)) = none) :
    (DataStore.runOps s ops).table.find?
      (fun e => decide (e.1 = h)) = none := by
  induction ops generalizing s with
  | nil => exact habs
  | cons op rest ih =>
    simp only [DataStore.runOps, List.foldl_cons]
    exact ih (s.applyOp op)
      (fun o ho => hops o (List.mem_cons_of_mem _ ho))
      (absent_preserved s h op (hops op (List.mem_cons_self op rest)) habs)

/-- C6: `get_handle_data` signals absence instead of crashing or returning a
stale value: after `free_handle_data(h)` and any further operations that do
not set `h` again, a read of `h` reports absence; a read of a handle with no
attachment reports absence; and a read at a type tag different from the one
stored reports absence (the type-erased store checks the tag). -/
theorem get_absence (s : DataStore V) (h : HWND) (t : Nat)
    (ops : List (StoreOp V)) (hops : ∀ op ∈ ops, op.isSetOn h = false) :
    get_handle_data (DataStore.runOps (free_handle_data s h) ops) h t =
      none ∧
    (s.table.find? (fun e => decide (e.1 = h)) = none →
      get_handle_data s h t = none) ∧
    (∀ t' (v : V t'), t' ≠ t →
      get_handle_data (set_handle_data s h t' v) h t = none) := by
  refine ⟨?_, ?_, ?_⟩
  · have habs := absent_preserved_run (free_handle_data s h) h ops hops
      (find_key_filter_ne s.table h)
    simp [get_handle_data, habs]
  · intro habs
    simp [get_handle_data, habs]
  · intro t' v hne
    simp [get_handle_data, set_handle_data, List.find?_cons_of_pos, hne]

/-- Witness for C6: attach 5 to handle 1, free handle 1, then attach 7 to the
unrelated handle 2; reading handle 1 reports absence. -/
theorem get_absence_witness :
    get_handle_data
      (DataStore.runOps
        (free_handle_data
          (set_handle_data (DataStore.empty (fun _ => Nat)) 1 0 5) 1)
        [StoreOp.set 2 0 7]) 1 0 = none :=
  (get_absence (set_handle_data (DataStore.empty (fun _ => Nat)) 1 0 5) 1 0
    [StoreOp.set 2 0 7]
    (by
      intro op hop
      rw [List.mem_singleton] at hop
      subst hop
      rfl)).1

omit [DecidableEq ID] in
/-- Helper: driving the enumeration callback over a list of OS children
appends exactly the recognized identifiers, in order, to the accumulator —
the callback never stops the enumeration. -/
theorem enum_children_eq (ui : UiInner ID) (l : List HWND)
    (acc : List ID) :
    EnumChildWindows (list_children_window ui) l acc =
      acc ++ l.filterMap (fun c => window_id c ui) := by
  induction l generalizing acc with
  | nil => simp [EnumChildWindows]
  | cons c rest ih =>
    simp only [EnumChildWindows]
    cases hw : window_id c ui with
    | none =>
      simp [list_children_window, hw, ih, List.filterMap_cons]
    | some id =>
      simp [list_children_window, hw, ih, List.filterMap_cons]

omit [DecidableEq ID] in
/-- C7: `list_window_children` returns exactly the registry-recognized
OS-reported descendants of the root, plus the menu-borne identifiers when the
root owns a menu: an identifier is in the result precisely when it is a menu
child of the root's menu, or the reverse lookup recognizes one of the
OS-reported child windows as it.  Unrecognized windows are excluded, and a
root with no menu and no recognized descendant yields the empty sequence. -/
theorem list_window_children_membership (os : WinTree ID) (handle : HWND)
    (ui : UiInner ID) (x : ID) :
    x ∈ list_window_children os handle ui ↔
      (os.menuOf handle ≠ 0 ∧
        x ∈ list_menu_children os (os.menuOf handle)) ∨
      ∃ c ∈ os.childWindows handle, window_id c ui = some x := by
  simp only [list_window_children, enum_children_eq, List.mem_append,
    List.mem_filterMap]
  by_cases hmenu : os.menuOf handle ≠ 0
  · simp [hmenu]
  · simp [hmenu]

omit [DecidableEq ID] in
/-- C10: in the result of `list_window_children` every menu-borne identifier
precedes every identifier collected by the child-window enumeration (the
result is literally the menu part appended before the enumeration part), and
the enumeration callback always returns 1, so every OS-reported child is
visited. -/
theorem list_window_children_order (os : WinTree ID) (handle : HWND)
    (ui : UiInner ID) :
    (∀ c acc, (list_children_window ui c acc).1 = 1) ∧
    list_window_children os handle ui =
      (if os.menuOf handle ≠ 0 then
        list_menu_children os (os.menuOf handle)
      else []) ++
        (os.childWindows handle).filterMap (fun c => window_id c ui) := by
  constructor
  · intro c acc
    cases hw : window_id c ui <;> simp [list_children_window, hw]
  · simp only [list_window_children, enum_children_eq]

end Nwg
